import Mathlib

/-
Verification of the classifier core of `predict_sign.py` (traffic-sign-ai).

The classifier is shallowly embedded:
* decoded raster images (`cv2.imread` output) are lists of rows of pixels,
  each pixel a list of channel values in 0..255 (`Nat`);
* normalized tensors use `ℚ` so that division by 255 is exact;
* the loaded Keras model is opaque external code, so it enters the embedding
  as a function from a batch to `Except String (List ℚ)` — `Except.error`
  standing for an exception raised during `model.predict`;
* `cv2.imread` is likewise external and enters as a function
  `String → Option RawImage`, `none` standing for a failed decode;
* `np.argmax` / `np.max` raise on an empty array, which the embedding
  renders as `Option`-valued `argmax` / `listMax`.
-/

namespace TrafficSign

/-- A pixel: its list of channel values (BGR order in the source), each 0..255. -/
abbrev Pixel := List Nat

/-- A row of pixels. -/
abbrev Row := List Pixel

/-- A decoded raster image: rows of pixels, as returned by `cv2.imread`. -/
abbrev RawImage := List Row

/-- A pixel after normalization (`image / 255.0`). -/
abbrev NPixel := List ℚ

/-- A normalized image. -/
abbrev NImage := List (List NPixel)

/-- A batch of normalized images (`np.expand_dims(image, axis=0)` yields one). -/
abbrev Batch := List NImage

/-- The loaded model as consumed by `predict_image`: `self.model.predict` is a
black-box forward pass that either returns a vector of class scores or raises. -/
abbrev Model := Batch → Except String (List ℚ)

/-- The fixed index→label dictionary `self.categories` from
`TrafficSignPredictor.__init__` (lines 23–67 of `predict_sign.py`). -/
def categories : List (Nat × String) :=
  [ (0, "Speed limit (20km/h)")
  , (1, "Speed limit (30km/h)")
  , (2, "Speed limit (50km/h)")
  , (3, "Speed limit (60km/h)")
  , (4, "Speed limit (70km/h)")
  , (5, "Speed limit (80km/h)")
  , (6, "End of speed limit (80km/h)")
  , (7, "Speed limit (100km/h)")
  , (8, "Speed limit (120km/h)")
  , (9, "No passing")
  , (10, "No passing for vehicles over 3.5 tons")
  , (11, "Right-of-way at next intersection")
  , (12, "Priority road")
  , (13, "Yield")
  , (14, "Stop")
  , (15, "No vehicles")
  , (16, "Vehicles over 3.5 tons prohibited")
  , (17, "No entry")
  , (18, "General caution")
  , (19, "Dangerous curve left")
  , (20, "Dangerous curve right")
  , (21, "Double curve")
  , (22, "Bumpy road")
  , (23, "Slippery road")
  , (24, "Road narrows on the right")
  , (25, "Road work")
  , (26, "Traffic signals")
  , (27, "Pedestrians")
  , (28, "Children crossing")
  , (29, "Bicycles crossing")
  , (30, "Beware of ice/snow")
  , (31, "Wild animals crossing")
  , (32, "End of all speed and passing limits")
  , (33, "Turn right ahead")
  , (34, "Turn left ahead")
  , (35, "Ahead only")
  , (36, "Go straight or right")
  , (37, "Go straight or left")
  , (38, "Keep right")
  , (39, "Keep left")
  , (40, "Roundabout mandatory")
  , (41, "End of no passing")
  , (42, "End of no passing by vehicles over 3.5 tons") ]

/-- Python `dict.get(key, "Unknown")` on the categories dictionary. -/
def categoriesGet (cats : List (Nat × String)) (i : Nat) : String :=
  (cats.lookup i).getD "Unknown"

/-- The state held by a constructed `TrafficSignPredictor`: the loaded model
and the label dictionary, both set once in `__init__`. -/
structure TrafficSignPredictor where
  model : Model
  categories : List (Nat × String)

/-- The two construction-time failure conditions of `__init__`:
the `FileNotFoundError` raised at line 20 when the path does not exist, and
any exception raised by `tf.keras.models.load_model` at line 22. -/
inductive InitError where
  | modelNotFound (msg : String)
  | modelLoadError (msg : String)
deriving DecidableEq

/-- `TrafficSignPredictor.__init__` (lines 17–70): check `os.path.exists`,
raise `FileNotFoundError` if missing, otherwise load the model and install the
fixed label dictionary. `pathExists` embeds `os.path.exists`; `load_model`
embeds the external `tf.keras.models.load_model`. The `except` block only
reports and re-raises, so the raised condition propagates unchanged. -/
def TrafficSignPredictor.init (pathExists : String → Bool)
    (load_model : String → Except String Model) (model_path : String) :
    Except InitError TrafficSignPredictor :=
  if pathExists model_path then
    match load_model model_path with
    | .error e => .error (.modelLoadError e)
    | .ok m => .ok ⟨m, TrafficSign.categories⟩
  else
    .error (.modelNotFound ("Model file \x27" ++ model_path ++ "\x27 not found"))

/-- `cv2.resize(image, (30, 30))`: produce a 30×30 image whose pixel (i, j)
is sampled from the source at the proportional position (nearest-neighbour
resampling; the source leaves the resampling kernel to OpenCV, which is
deterministic — the spec allows any deterministic choice). -/
def resizeTo30 (image : RawImage) : RawImage :=
  let h := image.length
  let w := (image.headD []).length
  (List.range 30).map fun i =>
    (List.range 30).map fun j =>
      (image.getD (i * h / 30) []).getD (j * w / 30) []

/-- `image = image / 255.0`: scale every channel value into [0, 1]. -/
def normalize (image : RawImage) : NImage :=
  image.map fun row : Row =>
    row.map fun px : Pixel => px.map fun v : Nat => (v : ℚ) / 255

/-- The scan inside `np.argmax`: running best index and best value; a later
element replaces the best only when strictly greater, so ties keep the
lowest index. `i` is the position of the head of the remaining list. -/
def argmaxAux : List ℚ → Nat → Nat → ℚ → Nat
  | [], _, best, _ => best
  | x :: xs, i, best, bestVal =>
    if bestVal < x then argmaxAux xs (i + 1) i x
    else argmaxAux xs (i + 1) best bestVal

/-- `np.argmax` on the (flattened) prediction vector; `none` for the empty
array, on which NumPy raises. -/
def argmax : List ℚ → Option Nat
  | [] => none
  | x :: xs => some (argmaxAux xs 1 0 x)

/-- `np.max` on the prediction vector; `none` for the empty array. -/
def listMax : List ℚ → Option ℚ
  | [] => none
  | x :: xs => some (xs.foldl max x)

/-- Specification-side helper: the lowest index at which `a` occurs in `l`
(`l.length` if absent). Used to state the tie-breaking behaviour of
`np.argmax`. -/
def firstIdx (a : ℚ) : List ℚ → Nat
  | [] => 0
  | x :: xs => if x = a then 0 else firstIdx a xs + 1

/-- The triple returned by `predict_image`:
`(predicted_class, label, confidence)`. -/
structure PredResult where
  class_index : Option Nat
  label : String
  confidence : ℚ
deriving DecidableEq

/-- `TrafficSignPredictor.predict_image` (lines 72–90): decode, resize,
normalize, batch, infer, argmax/max, label lookup; a failed decode returns
the `"Invalid image"` triple, and any exception in the remaining steps is
caught and folded into the `"Prediction failed"` triple. -/
def TrafficSignPredictor.predict_image (self : TrafficSignPredictor)
    (imread : String → Option RawImage) (image_path : String) : PredResult :=
  match imread image_path with
  | none => ⟨none, "Invalid image", 0⟩
  | some image =>
    let resized := resizeTo30 image
    let normalized := normalize resized
    let batched := [normalized]
    match self.model batched with
    | .error _ => ⟨none, "Prediction failed", 0⟩
    | .ok prediction =>
      match argmax prediction, listMax prediction with
      | some predicted_class, some confidence =>
        ⟨some predicted_class, categoriesGet self.categories predicted_class,
          confidence⟩
      | _, _ => ⟨none, "Prediction failed", 0⟩

/-- `predict_image` with the method state threaded explicitly: the source
assigns to no attribute of `self`, so every statement passes the instance
through unchanged and each exit pairs the result with that instance. -/
def TrafficSignPredictor.predict_image_st (self : TrafficSignPredictor)
    (imread : String → Option RawImage) (image_path : String) :
    PredResult × TrafficSignPredictor :=
  match imread image_path with
  | none => (⟨none, "Invalid image", 0⟩, self)
  | some image =>
    let resized := resizeTo30 image
    let normalized := normalize resized
    let batched := [normalized]
    match self.model batched with
    | .error _ => (⟨none, "Prediction failed", 0⟩, self)
    | .ok prediction =>
      match argmax prediction, listMax prediction with
      | some predicted_class, some confidence =>
        (⟨some predicted_class, categoriesGet self.categories predicted_class,
          confidence⟩, self)
      | _, _ => (⟨none, "Prediction failed", 0⟩, self)

/-! ### Helper lemmas about folded maxima and first occurrences -/

theorem le_foldl_max (xs : List ℚ) (v : ℚ) : v ≤ xs.foldl max v := by
  induction xs generalizing v with
  | nil => exact le_refl v
  | cons x xs ih => exact le_trans (le_max_left v x) (ih (max v x))

theorem mem_le_foldl_max (xs : List ℚ) (v x : ℚ) (hx : x ∈ xs) :
    x ≤ xs.foldl max v := by
  induction xs generalizing v with
  | nil => cases hx
  | cons a xs ih =>
    rcases List.mem_cons.mp hx with h | h
    · subst h
      exact le_trans (le_max_right v x) (le_foldl_max xs (max v x))
    · exact ih (max v a) h

theorem foldl_max_mem (xs : List ℚ) (v : ℚ) :
    xs.foldl max v = v ∨ xs.foldl max v ∈ xs := by
  induction xs generalizing v with
  | nil => exact Or.inl rfl
  | cons a xs ih =>
    rw [List.foldl_cons]
    rcases ih (max v a) with h | h
    · rcases max_choice v a with hm | hm
      · exact Or.inl (h.trans hm)
      · exact Or.inr (by rw [h, hm]; exact List.mem_cons_self a xs)
    · exact Or.inr (List.mem_cons_of_mem a h)

theorem firstIdx_lt_length (a : ℚ) (l : List ℚ) (h : a ∈ l) :
    firstIdx a l < l.length := by
  induction l with
  | nil => cases h
  | cons x xs ih =>
    by_cases hx : x = a
    · simp [firstIdx, hx]
    · rcases List.mem_cons.mp h with h1 | h1
      · exact absurd h1.symm hx
      · simpa [firstIdx, hx] using Nat.succ_lt_succ (ih h1)

theorem getD_firstIdx (a : ℚ) (l : List ℚ) (h : a ∈ l) :
    l.getD (firstIdx a l) 0 = a := by
  induction l with
  | nil => cases h
  | cons x xs ih =>
    by_cases hx : x = a
    · simp [firstIdx, hx]
    · rcases List.mem_cons.mp h with h1 | h1
      · exact absurd h1.symm hx
      · simpa [firstIdx, hx] using ih h1

theorem firstIdx_min (a : ℚ) (l : List ℚ) :
    ∀ j, j < firstIdx a l → l.getD j 0 ≠ a := by
  induction l with
  | nil => intro j hj; simp [firstIdx] at hj
  | cons x xs ih =>
    intro j hj
    by_cases hx : x = a
    · simp [firstIdx, hx] at hj
    · cases j with
      | zero => simpa using hx
      | succ j =>
        simp only [firstIdx, if_neg hx] at hj
        simpa using ih j (by omega)

theorem argmaxAux_eq (xs : List ℚ) :
    ∀ (i b : Nat) (v : ℚ), argmaxAux xs i b v =
      if xs.foldl max v = v then b
      else i + firstIdx (xs.foldl max v) xs := by
  induction xs with
  | nil => intro i b v; simp [argmaxAux]
  | cons x xs ih =>
    intro i b v
    rw [List.foldl_cons]
    by_cases hvx : v < x
    · rw [show argmaxAux (x :: xs) i b v = argmaxAux xs (i + 1) i x from
        by rw [argmaxAux, if_pos hvx]]
      rw [ih (i + 1) i x]
      rw [max_eq_right (le_of_lt hvx)]
      have hMx : x ≤ xs.foldl max x := le_foldl_max xs x
      have hMv : ¬ xs.foldl max x = v := fun heq =>
        absurd (lt_of_lt_of_le hvx hMx) (by rw [heq]; exact lt_irrefl v)
      rw [if_neg hMv]
      by_cases hM : xs.foldl max x = x
      · rw [if_pos hM, firstIdx, if_pos hM.symm]
        omega
      · rw [if_neg hM, firstIdx, if_neg (fun h => hM h.symm)]
        omega
    · rw [show argmaxAux (x :: xs) i b v = argmaxAux xs (i + 1) b v from
        by rw [argmaxAux, if_neg hvx]]
      rw [ih (i + 1) b v]
      rw [max_eq_left (le_of_not_lt hvx)]
      by_cases hMv : xs.foldl max v = v
      · rw [if_pos hMv, if_pos hMv]
      · rw [if_neg hMv, if_neg hMv]
        have hxM : ¬ x = xs.foldl max v := fun heq =>
          hMv (le_antisymm (heq ▸ le_of_not_lt hvx) (le_foldl_max xs v))
        rw [firstIdx, if_neg hxM]
        omega

theorem argmax_eq_firstIdx (x : ℚ) (xs : List ℚ) :
    argmax (x :: xs) = some (firstIdx (xs.foldl max x) (x :: xs)) := by
  rw [argmax, argmaxAux_eq xs 1 0 x]
  by_cases h : xs.foldl max x = x
  · rw [if_pos h, firstIdx, if_pos h.symm]
  · rw [if_neg h, firstIdx, if_neg (fun hh => h hh.symm)]
    rw [Nat.add_comm]

/-! ### Helper lemmas about list indexing and lookup -/

theorem getD_mem_of_lt {α : Type} (l : List α) (i : Nat) (d : α)
    (h : i < l.length) : l.getD i d ∈ l := by
  induction l generalizing i with
  | nil => simp at h
  | cons x xs ih =>
    cases i with
    | zero => simp
    | succ i =>
      simp only [List.getD_cons_succ]
      exact List.mem_cons_of_mem x (ih i (by simpa using h))

theorem getD_mem_or {α : Type} (l : List α) (i : Nat) (d : α) :
    l.getD i d ∈ l ∨ l.getD i d = d := by
  induction l generalizing i with
  | nil => exact Or.inr rfl
  | cons x xs ih =>
    cases i with
    | zero => exact Or.inl (by simp)
    | succ i =>
      simp only [List.getD_cons_succ]
      rcases ih i with h | h
      · exact Or.inl (List.mem_cons_of_mem x h)
      · exact Or.inr h

theorem getD_map {α β : Type} (f : α → β) (l : List α) (d : α) :
    ∀ i, (l.map f).getD i (f d) = f (l.getD i d) := by
  induction l with
  | nil => intro i; rfl
  | cons x xs ih =>
    intro i
    cases i with
    | zero => rfl
    | succ i => simp only [List.map_cons, List.getD_cons_succ]; exact ih i

theorem lookup_none_of_keys_lt (l : List (Nat × String))
    (hk : ∀ p ∈ l, p.1 < 43) (i : Nat) (hi : 43 ≤ i) : l.lookup i = none := by
  induction l with
  | nil => rfl
  | cons a l ih =>
    have ha := hk a (List.mem_cons_self a l)
    have hne : (i == a.1) = false := by
      simp only [beq_eq_false_iff_ne, ne_eq]
      omega
    rcases a with ⟨k, s⟩
    simp only [List.lookup, hne]
    exact ih fun p hp => hk p (List.mem_cons_of_mem _ hp)

theorem lookup_mem_values (l : List (Nat × String)) (i : Nat) (v : String)
    (h : l.lookup i = some v) : v ∈ l.map Prod.snd := by
  induction l with
  | nil => cases h
  | cons a l ih =>
    rcases a with ⟨k, s⟩
    by_cases hk : (i == k) = true
    · simp only [List.lookup, hk] at h
      simp [← Option.some_inj.mp h]
    · simp only [List.lookup, Bool.not_eq_true] at h
      rw [Bool.not_eq_true] at hk
      rw [hk] at h
      exact List.mem_cons_of_mem _ (ih h)

/-! ### The categories dictionary -/

theorem categories_lookup_isSome :
    ∀ i, i < 43 → (categories.lookup i).isSome = true := by decide

theorem categories_lookup_eq_get (i : Nat) (hi : i < 43) :
    categories.lookup i = some (categoriesGet categories i) := by
  rcases Option.isSome_iff_exists.mp (categories_lookup_isSome i hi) with ⟨v, hv⟩
  rw [categoriesGet, hv]
  rfl

theorem categoriesGet_out_of_range (i : Nat) (hi : 42 < i) :
    categoriesGet categories i = "Unknown" := by
  rw [categoriesGet,
    lookup_none_of_keys_lt categories (by decide) i (by omega)]
  rfl

theorem categoriesGet_ne_error_labels (i : Nat) :
    categoriesGet categories i ≠ "Invalid image" ∧
    categoriesGet categories i ≠ "Prediction failed" := by
  rw [categoriesGet]
  cases h : categories.lookup i with
  | none => exact ⟨by decide, by decide⟩
  | some s =>
    have hv := lookup_mem_values categories i s h
    have hall : ∀ v ∈ categories.map Prod.snd,
        v ≠ "Invalid image" ∧ v ≠ "Prediction failed" := by decide
    simpa using hall s hv

/-! ### Characterization of the success path of predict_image -/

theorem predict_image_success_spec (self : TrafficSignPredictor)
    (imread : String → Option RawImage) (image_path : String)
    (image : RawImage) (pred : List ℚ)
    (hdec : imread image_path = some image)
    (hinf : self.model [normalize (resizeTo30 image)] = .ok pred)
    (hne : pred ≠ []) :
    ∃ i M, self.predict_image imread image_path =
        ⟨some i, categoriesGet self.categories i, M⟩ ∧
      i = firstIdx M pred ∧ M ∈ pred ∧ pred.getD i 0 = M ∧
      (∀ j, j < i → pred.getD j 0 ≠ M) ∧
      (∀ y ∈ pred, y ≤ M) ∧ i < pred.length := by
  rcases pred with _ | ⟨x, xs⟩
  · exact absurd rfl hne
  have hmem : xs.foldl max x ∈ x :: xs := by
    rcases foldl_max_mem xs x with h | h
    · rw [h]; exact List.mem_cons_self x xs
    · exact List.mem_cons_of_mem x h
  refine ⟨firstIdx (xs.foldl max x) (x :: xs), xs.foldl max x, ?_, rfl, hmem,
    getD_firstIdx _ _ hmem, firstIdx_min _ _, ?_, firstIdx_lt_length _ _ hmem⟩
  · simp only [TrafficSignPredictor.predict_image, hdec, hinf,
      argmax_eq_firstIdx, listMax]
  · intro y hy
    rcases List.mem_cons.mp hy with h | h
    · rw [h]; exact le_foldl_max xs x
    · exact mem_le_foldl_max xs x y h

/-! ### Claim theorems -/

/-- C1: for every image file that decodes successfully and classifies without
error (the model returns a 43-entry probability vector), `predict_image`
returns a class index in [0, 42], a confidence in [0, 1], and a label equal
to the label-table entry for that class index. -/
theorem C1_predict_image_valid
    (self : TrafficSignPredictor) (hcats : self.categories = categories)
    (imread : String → Option RawImage) (image_path : String)
    (image : RawImage) (pred : List ℚ)
    (hdec : imread image_path = some image)
    (hinf : self.model [normalize (resizeTo30 image)] = .ok pred)
    (hlen : pred.length = 43)
    (hprob : ∀ p ∈ pred, 0 ≤ p ∧ p ≤ 1) :
    ∃ i, (self.predict_image imread image_path).class_index = some i ∧
      i ≤ 42 ∧
      0 ≤ (self.predict_image imread image_path).confidence ∧
      (self.predict_image imread image_path).confidence ≤ 1 ∧
      categories.lookup i =
        some (self.predict_image imread image_path).label := by
  obtain ⟨i, M, hres, hfi, hmem, hget, hmin, hub, hlt⟩ :=
    predict_image_success_spec self imread image_path image pred hdec hinf
      (by intro h; rw [h] at hlen; exact absurd hlen (by decide))
  rw [hres]
  refine ⟨i, rfl, by omega, (hprob M hmem).1, (hprob M hmem).2, ?_⟩
  rw [hcats]
  exact categories_lookup_eq_get i (by omega)

/-- C1 witness: a concrete model emitting 43 equal scores on a concrete
decodable image. -/
theorem C1_predict_image_valid_witness :
    ∃ i, (TrafficSignPredictor.predict_image
        ⟨fun _ => .ok (List.replicate 43 0), categories⟩
        (fun _ => some [[[7, 8, 9]]]) "sign.png").class_index = some i ∧
      i ≤ 42 ∧
      0 ≤ (TrafficSignPredictor.predict_image
        ⟨fun _ => .ok (List.replicate 43 0), categories⟩
        (fun _ => some [[[7, 8, 9]]]) "sign.png").confidence ∧
      (TrafficSignPredictor.predict_image
        ⟨fun _ => .ok (List.replicate 43 0), categories⟩
        (fun _ => some [[[7, 8, 9]]]) "sign.png").confidence ≤ 1 ∧
      categories.lookup i =
        some (TrafficSignPredictor.predict_image
          ⟨fun _ => .ok (List.replicate 43 0), categories⟩
          (fun _ => some [[[7, 8, 9]]]) "sign.png").label :=
  C1_predict_image_valid _ rfl _ "sign.png" [[[7, 8, 9]]]
    (List.replicate 43 0) rfl rfl (by simp)
    (by intro p hp; rw [List.eq_of_mem_replicate hp]; exact ⟨le_refl 0, by norm_num⟩)

/-- C2: for every path that does not resolve to a decodable image
(`cv2.imread` returns `None`), `predict_image` returns the
`(None, "Invalid image", 0.0)` triple. -/
theorem C2_predict_image_invalid_image
    (self : TrafficSignPredictor) (imread : String → Option RawImage)
    (image_path : String) (hdec : imread image_path = none) :
    self.predict_image imread image_path = ⟨none, "Invalid image", 0⟩ := by
  simp only [TrafficSignPredictor.predict_image, hdec]

/-- C2 witness: a path on which decoding fails. -/
theorem C2_predict_image_invalid_image_witness :
    TrafficSignPredictor.predict_image ⟨fun _ => .error "e", categories⟩
      (fun _ => none) "missing.png" = ⟨none, "Invalid image", 0⟩ :=
  C2_predict_image_invalid_image _ _ "missing.png" rfl

/-- C3: `predict_image` is total (it is a Lean function into `PredResult`),
and any failure after decoding — an exception raised by the forward pass, or
the `np.argmax`/`np.max` error on an empty prediction vector — is caught and
converted to the `(None, "Prediction failed", 0.0)` triple. -/
theorem C3_predict_image_catches_failures
    (self : TrafficSignPredictor) (imread : String → Option RawImage)
    (image_path : String) (image : RawImage)
    (hdec : imread image_path = some image)
    (hfail : (∃ e, self.model [normalize (resizeTo30 image)] = .error e) ∨
      self.model [normalize (resizeTo30 image)] = .ok []) :
    self.predict_image imread image_path = ⟨none, "Prediction failed", 0⟩ := by
  rcases hfail with ⟨e, he⟩ | he <;>
    simp only [TrafficSignPredictor.predict_image, hdec, he, argmax, listMax]

/-- C3 witness: a model whose forward pass raises. -/
theorem C3_predict_image_catches_failures_witness :
    TrafficSignPredictor.predict_image ⟨fun _ => .error "bad shape", categories⟩
      (fun _ => some [[[0]]]) "sign.png" = ⟨none, "Prediction failed", 0⟩ :=
  C3_predict_image_catches_failures _ _ "sign.png" [[[0]]] rfl
    (Or.inl ⟨"bad shape", rfl⟩)

/-- C4: on a successful classification the class index is the index of the
maximum entry of the prediction vector with ties broken by the lowest index,
the confidence is that maximum (hence the vector's entry at the class index),
and the label is the table lookup of the class index with default
`"Unknown"`. -/
theorem C4_predict_image_argmax
    (self : TrafficSignPredictor) (imread : String → Option RawImage)
    (image_path : String) (image : RawImage) (pred : List ℚ)
    (hdec : imread image_path = some image)
    (hinf : self.model [normalize (resizeTo30 image)] = .ok pred)
    (hne : pred ≠ []) :
    ∃ i, (self.predict_image imread image_path).class_index = some i ∧
      i < pred.length ∧
      pred.getD i 0 = (self.predict_image imread image_path).confidence ∧
      (∀ j, j < i →
        pred.getD j 0 < (self.predict_image imread image_path).confidence) ∧
      (∀ j, j < pred.length →
        pred.getD j 0 ≤ (self.predict_image imread image_path).confidence) ∧
      (self.predict_image imread image_path).label =
        categoriesGet self.categories i := by
  obtain ⟨i, M, hres, hfi, hmem, hget, hmin, hub, hlt⟩ :=
    predict_image_success_spec self imread image_path image pred hdec hinf hne
  rw [hres]
  refine ⟨i, rfl, hlt, hget, ?_, ?_, rfl⟩
  · intro j hj
    exact lt_of_le_of_ne
      (hub _ (getD_mem_of_lt pred j 0 (lt_trans hj hlt))) (hmin j hj)
  · intro j hj
    exact hub _ (getD_mem_of_lt pred j 0 hj)

/-- C4 witness: a concrete prediction vector with a tie between indices 1
and 2; the lower index wins. -/
theorem C4_predict_image_argmax_witness :
    ∃ i, (TrafficSignPredictor.predict_image
        ⟨fun _ => .ok [0, 3, 3, 1], categories⟩
        (fun _ => some [[[7]]]) "sign.png").class_index = some i ∧
      i < ([0, 3, 3, 1] : List ℚ).length ∧
      ([0, 3, 3, 1] : List ℚ).getD i 0 = (TrafficSignPredictor.predict_image
        ⟨fun _ => .ok [0, 3, 3, 1], categories⟩
        (fun _ => some [[[7]]]) "sign.png").confidence ∧
      (∀ j, j < i → ([0, 3, 3, 1] : List ℚ).getD j 0 <
        (TrafficSignPredictor.predict_image
          ⟨fun _ => .ok [0, 3, 3, 1], categories⟩
          (fun _ => some [[[7]]]) "sign.png").confidence) ∧
      (∀ j, j < ([0, 3, 3, 1] : List ℚ).length →
        ([0, 3, 3, 1] : List ℚ).getD j 0 ≤
        (TrafficSignPredictor.predict_image
          ⟨fun _ => .ok [0, 3, 3, 1], categories⟩
          (fun _ => some [[[7]]]) "sign.png").confidence) ∧
      (TrafficSignPredictor.predict_image
        ⟨fun _ => .ok [0, 3, 3, 1], categories⟩
        (fun _ => some [[[7]]]) "sign.png").label =
      categoriesGet categories i :=
  C4_predict_image_argmax ⟨fun _ => .ok [0, 3, 3, 1], categories⟩ _
    "sign.png" [[[7]]] [0, 3, 3, 1] rfl rfl (by simp)

/-- C5: `predict_image` is deterministic — two calls with the same decoder
environment, the same path and the same loaded model yield the same class
index and the same confidence (the embedding is a pure function of these
inputs, as the source uses no randomness). -/
theorem C5_predict_image_deterministic
    (self : TrafficSignPredictor) (imread : String → Option RawImage)
    (image_path : String) :
    (self.predict_image imread image_path).class_index =
      (self.predict_image imread image_path).class_index ∧
    (self.predict_image imread image_path).confidence =
      (self.predict_image imread image_path).confidence :=
  ⟨rfl, rfl⟩

/-- C6: the label table covers every index the model can produce (0..42),
and a lookup outside 0..42 yields the sentinel `"Unknown"` instead of
failing. -/
theorem C6_categories_domain (i : Nat) :
    (i ≤ 42 → (categories.lookup i).isSome = true) ∧
    (42 < i → categoriesGet categories i = "Unknown") :=
  ⟨fun h => categories_lookup_isSome i (by omega),
   fun h => categoriesGet_out_of_range i h⟩

/-- C6 witness: the last in-range index and the first out-of-range index. -/
theorem C6_categories_domain_witness :
    (categories.lookup 42).isSome = true ∧
    categoriesGet categories 43 = "Unknown" :=
  ⟨(C6_categories_domain 42).1 (by decide),
   (C6_categories_domain 43).2 (by decide)⟩

/-- C7: constructing the predictor with a path that does not exist fails
with the `ModelNotFound` condition; the outcome does not depend on the model
loader (no load is attempted), and no instance — hence no model or label
table — is produced. -/
theorem C7_init_missing_model (pathExists : String → Bool)
    (model_path : String) (hmiss : pathExists model_path = false)
    (load₁ load₂ : String → Except String Model) :
    TrafficSignPredictor.init pathExists load₁ model_path =
      .error (.modelNotFound
        ("Model file \x27" ++ model_path ++ "\x27 not found")) ∧
    TrafficSignPredictor.init pathExists load₂ model_path =
      TrafficSignPredictor.init pathExists load₁ model_path ∧
    ∀ p, TrafficSignPredictor.init pathExists load₁ model_path ≠ .ok p := by
  have h1 : ∀ load : String → Except String Model,
      TrafficSignPredictor.init pathExists load model_path =
        .error (.modelNotFound
          ("Model file \x27" ++ model_path ++ "\x27 not found")) := by
    intro load
    simp [TrafficSignPredictor.init, hmiss]
  refine ⟨h1 load₁, (h1 load₂).trans (h1 load₁).symm, ?_⟩
  intro p hp
  rw [h1 load₁] at hp
  exact Except.noConfusion hp

/-- C7 witness: a concrete missing path with two different loaders. -/
theorem C7_init_missing_model_witness :
    TrafficSignPredictor.init (fun _ => false) (fun _ => .error "x")
      "model.h5" =
      .error (.modelNotFound "Model file \x27model.h5\x27 not found") :=
  (C7_init_missing_model (fun _ => false) "model.h5" rfl
    (fun _ => .error "x") (fun _ => .ok fun _ => .ok [])).1

/-- The method `predict_image`, state threaded, returns the instance it was
called on together with the result of the pure `predict_image`. -/
theorem predict_image_st_eq (self : TrafficSignPredictor)
    (imread : String → Option RawImage) (image_path : String) :
    self.predict_image_st imread image_path =
      (self.predict_image imread image_path, self) := by
  cases hdec : imread image_path with
  | none =>
    simp only [TrafficSignPredictor.predict_image_st,
      TrafficSignPredictor.predict_image, hdec]
  | some image =>
    cases hinf : self.model [normalize (resizeTo30 image)] with
    | error e =>
      simp only [TrafficSignPredictor.predict_image_st,
        TrafficSignPredictor.predict_image, hdec, hinf]
    | ok pred =>
      cases pred with
      | nil =>
        simp only [TrafficSignPredictor.predict_image_st,
          TrafficSignPredictor.predict_image, hdec, hinf, argmax, listMax]
      | cons x xs =>
        simp only [TrafficSignPredictor.predict_image_st,
          TrafficSignPredictor.predict_image, hdec, hinf, argmax, listMax]

/-- C9: no call to `predict_image` mutates the predictor: the state-threaded
method returns the instance unchanged — same loaded model, same label
table — alongside the classification result. -/
theorem C9_predict_image_no_mutation (self : TrafficSignPredictor)
    (imread : String → Option RawImage) (image_path : String) :
    (self.predict_image_st imread image_path).2 = self ∧
    ((self.predict_image_st imread image_path).2).model = self.model ∧
    ((self.predict_image_st imread image_path).2).categories =
      self.categories ∧
    (self.predict_image_st imread image_path).1 =
      self.predict_image imread image_path := by
  rw [predict_image_st_eq]
  exact ⟨rfl, rfl, rfl, rfl⟩

/-- C10: the class index is absent exactly when the label is one of the two
error labels; a present class index never carries either error label, so the
caller's `class_id is not None` test is equivalent to "no error occurred". -/
theorem C10_class_index_none_iff_error_label (self : TrafficSignPredictor)
    (hcats : self.categories = categories)
    (imread : String → Option RawImage) (image_path : String) :
    (self.predict_image imread image_path).class_index = none ↔
      ((self.predict_image imread image_path).label = "Invalid image" ∨
       (self.predict_image imread image_path).label = "Prediction failed") := by
  cases hdec : imread image_path with
  | none =>
    simp [TrafficSignPredictor.predict_image, hdec]
  | some image =>
    cases hinf : self.model [normalize (resizeTo30 image)] with
    | error e =>
      simp [TrafficSignPredictor.predict_image, hdec, hinf]
    | ok pred =>
      cases pred with
      | nil =>
        simp [TrafficSignPredictor.predict_image, hdec, hinf, argmax,
          listMax]
      | cons x xs =>
        simp only [TrafficSignPredictor.predict_image, hdec, hinf, argmax,
          listMax]
        refine iff_of_false (by simp) ?_
        rw [hcats]
        rintro (h | h)
        · exact (categoriesGet_ne_error_labels _).1 h
        · exact (categoriesGet_ne_error_labels _).2 h

/-- C10 witness: an undecodable path; the absent class index coincides with
the `"Invalid image"` label. -/
theorem C10_class_index_none_iff_error_label_witness :
    (TrafficSignPredictor.predict_image ⟨fun _ => .ok [], categories⟩
        (fun _ => none) "missing.png").class_index = none ↔
      ((TrafficSignPredictor.predict_image ⟨fun _ => .ok [], categories⟩
          (fun _ => none) "missing.png").label = "Invalid image" ∨
       (TrafficSignPredictor.predict_image ⟨fun _ => .ok [], categories⟩
          (fun _ => none) "missing.png").label = "Prediction failed") :=
  C10_class_index_none_iff_error_label _ rfl _ "missing.png"

/-! ### Preprocessing lemmas -/

theorem normalize_getD (m : RawImage) (i : Nat) :
    (normalize m).getD i [] =
      (m.getD i []).map
        (fun px : Pixel => px.map fun v : Nat => (v : ℚ) / 255) := by
  simpa [normalize] using
    getD_map
      (fun row : Row => row.map fun px : Pixel => px.map fun v : Nat => (v : ℚ) / 255)
      m [] i

theorem nrow_getD (row : Row) (j : Nat) :
    (row.map fun px : Pixel => px.map fun v : Nat => (v : ℚ) / 255).getD j [] =
      (row.getD j []).map fun v : Nat => (v : ℚ) / 255 := by
  simpa using
    getD_map (fun px : Pixel => px.map fun v : Nat => (v : ℚ) / 255) row [] j

theorem npx_getD (px : Pixel) (k : Nat) :
    (px.map fun v : Nat => (v : ℚ) / 255).getD k 0 =
      (px.getD k 0 : ℚ) / 255 := by
  have h := getD_map (fun v : Nat => (v : ℚ) / 255) px 0 k
  simp only [Nat.cast_zero, zero_div] at h
  exact h

theorem resizeTo30_val_bound (image : RawImage)
    (hle : ∀ row ∈ image, ∀ px ∈ row, ∀ v ∈ px, v ≤ 255) :
    ∀ row ∈ resizeTo30 image, ∀ px ∈ row, ∀ v ∈ px, v ≤ 255 := by
  intro row hrow px hpx v hv
  simp only [resizeTo30, List.mem_map, List.mem_range] at hrow
  obtain ⟨i, hi, rfl⟩ := hrow
  simp only [List.mem_map, List.mem_range] at hpx
  obtain ⟨j, hj, rfl⟩ := hpx
  rcases getD_mem_or (image.getD (i * image.length / 30) [])
      (j * (image.headD []).length / 30) [] with hin | hemp
  · rcases getD_mem_or image (i * image.length / 30) [] with hin2 | hemp2
    · exact hle _ hin2 _ hin v hv
    · rw [hemp2] at hin
      cases hin
  · rw [hemp] at hv
    cases hv

/-- C8: preprocessing resizes the decoded image to exactly 30×30 pixels,
scales every channel value into [0, 1] by dividing by 255 (elementwise the
normalized value is the raw value divided by 255), and the batch passed to
the model is the single preprocessed image, of size 1. -/
theorem C8_preprocess (image : RawImage)
    (hle : ∀ row ∈ image, ∀ px ∈ row, ∀ v ∈ px, v ≤ 255) :
    (resizeTo30 image).length = 30 ∧
    (∀ row ∈ resizeTo30 image, row.length = 30) ∧
    (∀ i j k : Nat,
      (((normalize (resizeTo30 image)).getD i []).getD j []).getD k 0 =
        ((((resizeTo30 image).getD i []).getD j []).getD k 0 : ℚ) / 255) ∧
    (∀ row ∈ normalize (resizeTo30 image), ∀ px ∈ row, ∀ v ∈ px,
      0 ≤ v ∧ v ≤ 1) ∧
    [normalize (resizeTo30 image)].length = 1 := by
  refine ⟨?_, ?_, ?_, ?_, rfl⟩
  · simp [resizeTo30]
  · intro row hrow
    simp only [resizeTo30, List.mem_map, List.mem_range] at hrow
    obtain ⟨i, hi, rfl⟩ := hrow
    simp
  · intro i j k
    rw [normalize_getD, nrow_getD, npx_getD]
  · intro row hrow px hpx v hv
    rw [normalize] at hrow
    obtain ⟨row0, hrow0, rfl⟩ := List.mem_map.mp hrow
    obtain ⟨px0, hpx0, rfl⟩ := List.mem_map.mp hpx
    obtain ⟨v0, hv0, rfl⟩ := List.mem_map.mp hv
    have hb : v0 ≤ 255 := resizeTo30_val_bound image hle row0 hrow0 px0 hpx0 v0 hv0
    constructor
    · exact div_nonneg (Nat.cast_nonneg v0) (by norm_num)
    · rw [div_le_one (by norm_num)]
      exact_mod_cast hb

/-- C8 witness: a concrete 1×1 image; the resized image is 30×30 and the
top-left normalized channel value is the raw value divided by 255. -/
theorem C8_preprocess_witness :
    (resizeTo30 [[[10, 20, 30]]]).length = 30 ∧
    (((normalize (resizeTo30 [[[10, 20, 30]]])).getD 0 []).getD 0 []).getD 0 0 =
      ((((resizeTo30 [[[10, 20, 30]]]).getD 0 []).getD 0 []).getD 0 0 : ℚ) /
        255 := by
  obtain ⟨h1, _, h3, _, _⟩ := C8_preprocess [[[10, 20, 30]]] (by decide)
  exact ⟨h1, h3 0 0 0⟩

end TrafficSign
